import Mathlib

/-!
Verification of the inheritance-valuation core of the financial-tool
repository.  JavaScript numbers are modelled as rationals (ℚ) for monetary
amounts and as integers (ℤ) for calendar years and ages; JS objects used as
string-keyed records are modelled as association lists; optional fields are
Option.  The definitions below are transcribed from
src/frontend/src/components/LifeEventForm.tsx (the InheritanceCalculator
component) and the accompanying type declarations.
-/

namespace FinancialTool

/-- JS `x || d` on an optional numeric field: `undefined` and the falsy
value `0` both fall back to the default `d`. -/
def jsOrZ (v : Option ℤ) (d : ℤ) : ℤ :=
  match v with
  | none => d
  | some x => if x = 0 then d else x

/-- JS `x || d` for a rational-valued optional expression, such as
`record[key] || 0`: `undefined` and the falsy value `0` fall back to `d`. -/
def jsOrQ (v : Option ℚ) (d : ℚ) : ℚ :=
  match v with
  | none => d
  | some x => if x = 0 then d else x

/-- UserProfile from the frontend types (birth_year, life_expectancy,
retirement_age, optional spouse_birth_year). -/
structure UserProfile where
  birth_year : ℤ
  life_expectancy : ℤ
  retirement_age : ℤ
  spouse_birth_year : Option ℤ
deriving DecidableEq, Repr

/-- Pension from the frontend types (id optional, name, currency,
monthly_amount_estimated, start_age, is_inflation_adjusted). -/
structure Pension where
  id : Option String
  name : String
  currency : String
  monthly_amount_estimated : ℚ
  start_age : ℤ
  is_inflation_adjusted : Bool
deriving DecidableEq, Repr

/-- SimulationResult from the frontend types: one projected year.  The
string-keyed records pension_incomes / asset_balances / asset_drawdowns are
association lists; the latter two are optional fields. -/
structure SimulationResult where
  year : ℤ
  age : ℤ
  total_assets : ℚ
  pension_incomes : List (String × ℚ)
  asset_balances : Option (List (String × ℚ))
  asset_drawdowns : Option (List (String × ℚ))
deriving DecidableEq, Repr

/-- One row of the pension-valuation table produced by the component. -/
structure PensionValuation where
  name : String
  annualAmountUSD : ℚ
  valuationUSD : ℚ
  valuationJPY : ℚ
deriving DecidableEq, Repr

/-- One row of the asset-valuation table produced by the component. -/
structure AssetValuation where
  name : String
  balanceUSD : ℚ
  valuationUSD : ℚ
  valuationJPY : ℚ
deriving DecidableEq, Repr

/-- `simulationResult.find(r => r.year === inheritanceYear)`. -/
def findTargetResult (series : List SimulationResult) (inheritanceYear : ℤ) :
    Option SimulationResult :=
  series.find? (fun r => r.year == inheritanceYear)

/-- `inheritanceYear - (profile.spouse_birth_year || profile.birth_year)`. -/
def spouseAgeAtInheritance (inheritanceYear : ℤ) (profile : UserProfile) : ℤ :=
  inheritanceYear - jsOrZ profile.spouse_birth_year profile.birth_year

/-- `Math.max(0, spouseLifeExpectancyAge - spouseAgeAtInheritance)`. -/
def remainingYears (inheritanceYear spouseLifeExpectancyAge : ℤ)
    (profile : UserProfile) : ℤ :=
  max 0 (spouseLifeExpectancyAge - spouseAgeAtInheritance inheritanceYear profile)

/-- The PV factor computed inside the pensionValuations memo:
`r = interestRate / 100; if (r === 0) pvFactor = n;
else pvFactor = (1 - Math.pow(1 + r, -n)) / r`. -/
def pvFactor (interestRate : ℚ) (n : ℤ) : ℚ :=
  let r := interestRate / 100
  if r = 0 then (n : ℚ) else (1 - (1 + r) ^ (-n)) / r

/-- The PV factor displayed in the Calculation Parameters preview, before the
toFixed(3) display formatting: `interestRate > 0 ?
(1 - Math.pow(1 + interestRate / 100, -remainingYears)) / (interestRate / 100)
: remainingYears`. -/
def previewPvFactor (interestRate : ℚ) (n : ℤ) : ℚ :=
  if interestRate > 0 then
    (1 - (1 + interestRate / 100) ^ (-n)) / (interestRate / 100)
  else (n : ℚ)

/-- The pensionValuations memo: empty when the target year is missing from
the series, otherwise one row per pension with
`annualAmountUSD = targetResult.pension_incomes[pension.name] || 0`,
`valuationUSD = annualAmountUSD * pvFactor`,
`valuationJPY = valuationUSD * calculationExchangeRate`. -/
def pensionValuations (series : List SimulationResult) (profile : UserProfile)
    (pensions : List Pension) (inheritanceYear spouseLifeExpectancyAge : ℤ)
    (interestRate exchangeRate : ℚ) : List PensionValuation :=
  match findTargetResult series inheritanceYear with
  | none => []
  | some targetResult =>
    let n := remainingYears inheritanceYear spouseLifeExpectancyAge profile
    let pv := pvFactor interestRate n
    pensions.map (fun pension =>
      let annualAmountUSD := jsOrQ (targetResult.pension_incomes.lookup pension.name) 0
      { name := pension.name
        annualAmountUSD := annualAmountUSD
        valuationUSD := annualAmountUSD * pv
        valuationJPY := annualAmountUSD * pv * exchangeRate })

/-- The assetValuations memo: empty when the target year is missing or its
asset_balances record is absent, otherwise one row per
`Object.entries(targetResult.asset_balances)` entry with
`valuationUSD = balanceUSD` and `valuationJPY = balanceUSD * calculationExchangeRate`. -/
def assetValuations (series : List SimulationResult) (inheritanceYear : ℤ)
    (exchangeRate : ℚ) : List AssetValuation :=
  match findTargetResult series inheritanceYear with
  | none => []
  | some targetResult =>
    match targetResult.asset_balances with
    | none => []
    | some entries =>
      entries.map (fun nb =>
        { name := nb.1
          balanceUSD := nb.2
          valuationUSD := nb.2
          valuationJPY := nb.2 * exchangeRate })

/-- `pensionValuations.reduce((sum, v) => sum + v.valuationJPY, 0)`. -/
def totalPensionValuationJPY (series : List SimulationResult) (profile : UserProfile)
    (pensions : List Pension) (inheritanceYear spouseLifeExpectancyAge : ℤ)
    (interestRate exchangeRate : ℚ) : ℚ :=
  (pensionValuations series profile pensions inheritanceYear spouseLifeExpectancyAge
      interestRate exchangeRate).foldl (fun sum v => sum + v.valuationJPY) 0

/-- `assetValuations.reduce((sum, v) => sum + v.valuationJPY, 0)`. -/
def totalAssetValuationJPY (series : List SimulationResult) (inheritanceYear : ℤ)
    (exchangeRate : ℚ) : ℚ :=
  (assetValuations series inheritanceYear exchangeRate).foldl
    (fun sum v => sum + v.valuationJPY) 0

/-- `totalValuationJPY = totalPensionValuationJPY + totalAssetValuationJPY`. -/
def totalValuationJPY (series : List SimulationResult) (profile : UserProfile)
    (pensions : List Pension) (inheritanceYear spouseLifeExpectancyAge : ℤ)
    (interestRate exchangeRate : ℚ) : ℚ :=
  totalPensionValuationJPY series profile pensions inheritanceYear
      spouseLifeExpectancyAge interestRate exchangeRate
    + totalAssetValuationJPY series inheritanceYear exchangeRate

/-- `exemptionLimit = 5000000 * numberOfHeirs`. -/
def exemptionLimit (numberOfHeirs : ℤ) : ℤ :=
  5000000 * numberOfHeirs

/-- Currency code, per the frontend types. -/
inductive Currency
  | USD
  | JPY
deriving DecidableEq, Repr

/-- Error taxonomy of the spec (section 7). -/
inductive CoreError
  | invalidInput
  | notFound
  | persistenceFailure
deriving DecidableEq, Repr

/-- Modelled from the spec: the CurrencyConverter backend component is not
present under src/ (only its frontend callers are).  toUSD(amount, currency,
rate): a USD amount stays as-is, a JPY amount divides by the rate; the rate
must be positive, and a non-positive rate fails with an InvalidInput error. -/
def toUSD (amount : ℚ) (currency : Currency) (rate : ℚ) : Except CoreError ℚ :=
  if rate ≤ 0 then .error .invalidInput
  else .ok (match currency with
    | .USD => amount
    | .JPY => amount / rate)

/-- Modelled from the spec: the CurrencyConverter backend component is not
present under src/.  toJPY(amount, currency, rate): a JPY amount stays as-is,
a USD amount multiplies by the rate; the rate must be positive, and a
non-positive rate fails with an InvalidInput error. -/
def toJPY (amount : ℚ) (currency : Currency) (rate : ℚ) : Except CoreError ℚ :=
  if rate ≤ 0 then .error .invalidInput
  else .ok (match currency with
    | .USD => amount * rate
    | .JPY => amount)

/-! Helper lemmas shared by the claim proofs. -/

/-- JS `x || 0` on an optional rational equals Option.getD 0: when the stored
value is the falsy 0, falling back to 0 returns the same value. -/
theorem jsOrQ_zero (v : Option ℚ) : jsOrQ v 0 = v.getD 0 := by
  cases v with
  | none => rfl
  | some x =>
    by_cases hx : x = 0 <;> simp [jsOrQ, hx]

/-- A JS reduce accumulating `sum + f v` from 0 computes the sum of the
mapped list, with an arbitrary initial accumulator. -/
theorem foldl_add_map {α : Type} (f : α → ℚ) (l : List α) (a : ℚ) :
    l.foldl (fun sum v => sum + f v) a = a + (l.map f).sum := by
  induction l generalizing a with
  | nil => simp
  | cons x xs ih => simp [List.foldl_cons, ih, add_assoc]

/-! Concrete example inputs used by witnesses and counterexamples. -/

/-- A projected year 2030 with one pension income and one asset balance. -/
def exResult2030 : SimulationResult :=
  { year := 2030
    age := 55
    total_assets := 500000
    pension_incomes := [("US Social Security", 24000)]
    asset_balances := some [("401k", 300000)]
    asset_drawdowns := some [("401k", 0)] }

/-- A one-element simulation series containing only the year 2030. -/
def exSeries : List SimulationResult := [exResult2030]

/-- An example profile with a genuine (nonzero) spouse birth year. -/
def exProfile : UserProfile :=
  { birth_year := 1975
    life_expectancy := 95
    retirement_age := 65
    spouse_birth_year := some 1977 }

/-- An example pension whose name matches the stored pension income. -/
def exPension : Pension :=
  { id := some "p1"
    name := "US Social Security"
    currency := "USD"
    monthly_amount_estimated := 2000
    start_age := 67
    is_inflation_adjusted := false }

/-! Claim theorems. -/

/-- C1 counterexample: at interestRate = 5 and remainingYears = 10, the PV
factor computed by the code is (1 - (21/20)^(-10)) / (1/20), approximately
7.7217349, which differs from 7.7217 by about 3.49e-5, so it is NOT within
1e-6 of 7.7217 as the claim states. -/
theorem C1_counterexample :
    ¬ |pvFactor 5 10 - 77217 / 10000| ≤ 1 / 1000000 := by
  simp only [pvFactor]
  rw [abs_le]
  norm_num

/-- C1 (amended): for every interestRate ≥ 0 and every integer
remainingYears n ≥ 0, the PV factor equals n when r = interestRate / 100 is
0 and equals (1 - (1+r)^(-n)) / r otherwise; at interestRate = 5 and n = 10
the factor is within 1e-4 of 7.7217. -/
theorem C1_pvFactor_formula (interestRate : ℚ) (hir : 0 ≤ interestRate)
    (n : ℤ) (hn : 0 ≤ n) :
    (interestRate / 100 = 0 → pvFactor interestRate n = n) ∧
    (interestRate / 100 ≠ 0 →
      pvFactor interestRate n =
        (1 - (1 + interestRate / 100) ^ (-n)) / (interestRate / 100)) ∧
    |pvFactor 5 10 - 77217 / 10000| ≤ 1 / 10000 := by
  refine ⟨fun h0 => ?_, fun hne => ?_, ?_⟩
  · simp [pvFactor, h0]
  · simp [pvFactor, hne]
  · simp only [pvFactor]
    rw [abs_le]
    norm_num

/-- C1 witness: the amended claim instantiated at interestRate = 5,
remainingYears = 10. -/
theorem C1_pvFactor_formula_witness :
    |pvFactor 5 10 - 77217 / 10000| ≤ 1 / 10000 :=
  (C1_pvFactor_formula 5 (by norm_num) 10 (by norm_num)).2.2

/-- C9: for every non-negative interest rate and every integer remaining
duration, the PV factor shown in the Calculation Parameters preview (which
branches on interestRate > 0) equals the PV factor computed inside the
pension-valuation memo (which branches on r == 0). -/
theorem C9_preview_matches_core (interestRate : ℚ) (hir : 0 ≤ interestRate)
    (n : ℤ) :
    previewPvFactor interestRate n = pvFactor interestRate n := by
  rcases eq_or_lt_of_le hir with h0 | hpos
  · simp [previewPvFactor, pvFactor, ← h0]
  · have hne : interestRate / 100 ≠ 0 := by positivity
    simp [previewPvFactor, pvFactor, hpos, hne]

/-- C9 witness: the preview and core PV factors agree at interestRate = 5,
n = 10. -/
theorem C9_preview_matches_core_witness :
    previewPvFactor 5 10 = pvFactor 5 10 :=
  C9_preview_matches_core 5 (by norm_num) 10

/-- C2 counterexample: requesting year 2040 from a series holding only 2030
does NOT fail with a NotFound error value: the component has no error
channel; it still produces a success value with empty valuation lists, a
grand total of 0 JPY, and an exemption limit, contradicting the claim that
no totals are produced as a success value. -/
theorem C2_counterexample :
    findTargetResult exSeries 2040 = none ∧
    pensionValuations exSeries exProfile [exPension] 2040 87 5 150 = [] ∧
    assetValuations exSeries 2040 150 = [] ∧
    totalValuationJPY exSeries exProfile [exPension] 2040 87 5 150 = 0 ∧
    exemptionLimit 2 = 10000000 := by
  refine ⟨rfl, rfl, rfl, ?_, rfl⟩
  show (0 : ℚ) + 0 = 0
  norm_num

/-- C2 (amended): when the requested inheritance year is absent from the
series, the valuation yields no rows from any other year: the pension and
asset valuation lists are empty and the grand total is 0; no NotFound error
value is surfaced, absence is signalled only through the empty result. -/
theorem C2_absent_year (series : List SimulationResult) (profile : UserProfile)
    (pensions : List Pension) (inheritanceYear spouseLifeExpectancyAge : ℤ)
    (interestRate exchangeRate : ℚ)
    (h : findTargetResult series inheritanceYear = none) :
    pensionValuations series profile pensions inheritanceYear
        spouseLifeExpectancyAge interestRate exchangeRate = [] ∧
    assetValuations series inheritanceYear exchangeRate = [] ∧
    totalValuationJPY series profile pensions inheritanceYear
        spouseLifeExpectancyAge interestRate exchangeRate = 0 := by
  refine ⟨?_, ?_, ?_⟩
  · simp [pensionValuations, h]
  · simp [assetValuations, h]
  · simp [totalValuationJPY, totalPensionValuationJPY, totalAssetValuationJPY,
      pensionValuations, assetValuations, h]

/-- C2 witness: the amended claim instantiated at the concrete series whose
only year is 2030 and the absent year 2040. -/
theorem C2_absent_year_witness :
    pensionValuations exSeries exProfile [exPension] 2040 87 5 150 = [] ∧
    assetValuations exSeries 2040 150 = [] ∧
    totalValuationJPY exSeries exProfile [exPension] 2040 87 5 150 = 0 :=
  C2_absent_year exSeries exProfile [exPension] 2040 87 5 150 rfl

/-- C5: the grand total in JPY is the sum of all pension-valuation JPY
amounts plus the sum of all asset-valuation JPY amounts (the code computes
each subtotal as a reduce from 0), and the exemption limit is 5,000,000 JPY
per statutory heir. -/
theorem C5_totals (series : List SimulationResult) (profile : UserProfile)
    (pensions : List Pension) (inheritanceYear spouseLifeExpectancyAge : ℤ)
    (interestRate exchangeRate : ℚ) (numberOfHeirs : ℤ) :
    totalValuationJPY series profile pensions inheritanceYear
        spouseLifeExpectancyAge interestRate exchangeRate =
      ((pensionValuations series profile pensions inheritanceYear
          spouseLifeExpectancyAge interestRate exchangeRate).map
        PensionValuation.valuationJPY).sum +
      ((assetValuations series inheritanceYear exchangeRate).map
        AssetValuation.valuationJPY).sum ∧
    exemptionLimit numberOfHeirs = 5000000 * numberOfHeirs := by
  constructor
  · rw [totalValuationJPY, totalPensionValuationJPY, totalAssetValuationJPY,
      foldl_add_map, foldl_add_map]
    ring
  · rfl

/-- C6 counterexample: for a profile with birth_year = 1975 and
spouse_birth_year present but equal to 0, at inheritance year 2035 and
spouse life expectancy 87, the code computes remainingYears = 27 (the falsy
0 falls back to birth_year), while the claimed formula
max(0, 87 - (2035 - spouse_birth_year)) with the present value 0 yields 0. -/
theorem C6_counterexample :
    remainingYears 2035 87
        { birth_year := 1975, life_expectancy := 95, retirement_age := 65,
          spouse_birth_year := some 0 } = 27 ∧
    max 0 (87 - (2035 - Option.getD
        (UserProfile.spouse_birth_year
          { birth_year := 1975, life_expectancy := 95, retirement_age := 65,
            spouse_birth_year := some 0 })
        (1975 : ℤ))) = 0 ∧
    (27 : ℤ) ≠ 0 := by
  refine ⟨rfl, rfl, by decide⟩

/-- C6 (amended): the remaining annuity duration equals
max(0, spouseLifeExpectancyAge - (inheritanceYear - spouse_birth_year)),
with birth_year substituted for spouse_birth_year when the latter is absent
OR equal to the falsy value 0; and the duration is never negative. -/
theorem C6_remainingYears (inheritanceYear spouseLifeExpectancyAge : ℤ)
    (p : UserProfile) :
    (p.spouse_birth_year = none →
      remainingYears inheritanceYear spouseLifeExpectancyAge p =
        max 0 (spouseLifeExpectancyAge - (inheritanceYear - p.birth_year))) ∧
    (p.spouse_birth_year = some 0 →
      remainingYears inheritanceYear spouseLifeExpectancyAge p =
        max 0 (spouseLifeExpectancyAge - (inheritanceYear - p.birth_year))) ∧
    (∀ v : ℤ, p.spouse_birth_year = some v → v ≠ 0 →
      remainingYears inheritanceYear spouseLifeExpectancyAge p =
        max 0 (spouseLifeExpectancyAge - (inheritanceYear - v))) ∧
    0 ≤ remainingYears inheritanceYear spouseLifeExpectancyAge p := by
  refine ⟨fun h => ?_, fun h => ?_, fun v hv hv0 => ?_, le_max_left _ _⟩
  · simp [remainingYears, spouseAgeAtInheritance, jsOrZ, h]
  · simp [remainingYears, spouseAgeAtInheritance, jsOrZ, h]
  · simp [remainingYears, spouseAgeAtInheritance, jsOrZ, hv, hv0]

/-- C6 witness: the amended claim instantiated at inheritance year 2035,
life expectancy 87, and a profile with spouse_birth_year = 1970. -/
theorem C6_remainingYears_witness :
    remainingYears 2035 87
        { birth_year := 1975, life_expectancy := 95, retirement_age := 65,
          spouse_birth_year := some 1970 } =
      max 0 (87 - (2035 - 1970)) :=
  (C6_remainingYears 2035 87
      { birth_year := 1975, life_expectancy := 95, retirement_age := 65,
        spouse_birth_year := some 1970 }).2.2.1 1970 rfl (by decide)

/-- C10: when spouse_birth_year is present but equal to 0, the falsy value
triggers the JS fallback, so the spouse age at inheritance, the remaining
duration, and the entire pension-valuation output are computed exactly as
if spouse_birth_year were absent, for every inheritance year and profile. -/
theorem C10_spouse_birth_year_zero (inheritanceYear spouseLifeExpectancyAge : ℤ)
    (p : UserProfile) (h : p.spouse_birth_year = some 0) :
    spouseAgeAtInheritance inheritanceYear p =
      spouseAgeAtInheritance inheritanceYear { p with spouse_birth_year := none } ∧
    remainingYears inheritanceYear spouseLifeExpectancyAge p =
      remainingYears inheritanceYear spouseLifeExpectancyAge
        { p with spouse_birth_year := none } ∧
    ∀ (series : List SimulationResult) (pensions : List Pension)
      (interestRate exchangeRate : ℚ),
      pensionValuations series p pensions inheritanceYear
          spouseLifeExpectancyAge interestRate exchangeRate =
        pensionValuations series { p with spouse_birth_year := none } pensions
          inheritanceYear spouseLifeExpectancyAge interestRate exchangeRate := by
  have hAge : spouseAgeAtInheritance inheritanceYear p =
      spouseAgeAtInheritance inheritanceYear { p with spouse_birth_year := none } := by
    simp [spouseAgeAtInheritance, jsOrZ, h]
  have hRem : remainingYears inheritanceYear spouseLifeExpectancyAge p =
      remainingYears inheritanceYear spouseLifeExpectancyAge
        { p with spouse_birth_year := none } := by
    simp [remainingYears, hAge]
  refine ⟨hAge, hRem, fun series pensions interestRate exchangeRate => ?_⟩
  simp only [pensionValuations, hRem]

/-- C10 witness: the equalities instantiated at year 2035, life expectancy
87, and a concrete profile with spouse_birth_year = 0. -/
theorem C10_spouse_birth_year_zero_witness :
    spouseAgeAtInheritance 2035
        { birth_year := 1975, life_expectancy := 95, retirement_age := 65,
          spouse_birth_year := some 0 } =
      spouseAgeAtInheritance 2035
        { birth_year := 1975, life_expectancy := 95, retirement_age := 65,
          spouse_birth_year := none } :=
  (C10_spouse_birth_year_zero 2035 87
      { birth_year := 1975, life_expectancy := 95, retirement_age := 65,
        spouse_birth_year := some 0 } rfl).1

/-- C3: for every pension in the input list, when the inheritance year is
found in the series, the valuation table contains the row whose annual
amount is the value stored under the pension's name in that year's
pension_incomes (0 when absent), whose USD valuation is that amount times
the PV factor, and whose JPY valuation is the USD valuation times the
exchange rate. -/
theorem C3_pension_rows (series : List SimulationResult) (profile : UserProfile)
    (pensions : List Pension) (inheritanceYear spouseLifeExpectancyAge : ℤ)
    (interestRate exchangeRate : ℚ) (target : SimulationResult)
    (ht : findTargetResult series inheritanceYear = some target)
    (p : Pension) (hp : p ∈ pensions) :
    ({ name := p.name
       annualAmountUSD := (target.pension_incomes.lookup p.name).getD 0
       valuationUSD := (target.pension_incomes.lookup p.name).getD 0 *
         pvFactor interestRate
           (remainingYears inheritanceYear spouseLifeExpectancyAge profile)
       valuationJPY := (target.pension_incomes.lookup p.name).getD 0 *
         pvFactor interestRate
           (remainingYears inheritanceYear spouseLifeExpectancyAge profile) *
         exchangeRate } : PensionValuation) ∈
      pensionValuations series profile pensions inheritanceYear
        spouseLifeExpectancyAge interestRate exchangeRate := by
  rw [pensionValuations, ht]
  exact List.mem_map.mpr ⟨p, hp, by simp [jsOrQ_zero]⟩

/-- C3 witness: the concrete series with year 2030 contains the expected
row for the example pension. -/
theorem C3_pension_rows_witness :
    ({ name := exPension.name
       annualAmountUSD := (exResult2030.pension_incomes.lookup exPension.name).getD 0
       valuationUSD := (exResult2030.pension_incomes.lookup exPension.name).getD 0 *
         pvFactor 5 (remainingYears 2030 87 exProfile)
       valuationJPY := (exResult2030.pension_incomes.lookup exPension.name).getD 0 *
         pvFactor 5 (remainingYears 2030 87 exProfile) * 150 } : PensionValuation) ∈
      pensionValuations exSeries exProfile [exPension] 2030 87 5 150 :=
  C3_pension_rows exSeries exProfile [exPension] 2030 87 5 150 exResult2030
    rfl exPension (by simp)

/-- C4: for every entry (name, balance) of the chosen year's asset_balances
record, the asset-valuation table contains the row whose USD valuation is
the balance itself (no annuity discount) and whose JPY valuation is the
balance times the exchange rate. -/
theorem C4_asset_rows (series : List SimulationResult) (inheritanceYear : ℤ)
    (exchangeRate : ℚ) (target : SimulationResult)
    (entries : List (String × ℚ))
    (ht : findTargetResult series inheritanceYear = some target)
    (hb : target.asset_balances = some entries)
    (nb : String × ℚ) (hnb : nb ∈ entries) :
    ({ name := nb.1
       balanceUSD := nb.2
       valuationUSD := nb.2
       valuationJPY := nb.2 * exchangeRate } : AssetValuation) ∈
      assetValuations series inheritanceYear exchangeRate := by
  have he : assetValuations series inheritanceYear exchangeRate =
      entries.map (fun nb =>
        ({ name := nb.1, balanceUSD := nb.2, valuationUSD := nb.2,
           valuationJPY := nb.2 * exchangeRate } : AssetValuation)) := by
    simp [assetValuations, ht, hb]
  rw [he]
  exact List.mem_map.mpr ⟨nb, hnb, rfl⟩

/-- C4 witness: the concrete series with year 2030 contains the expected
row for the 401k balance of 300000 at exchange rate 150. -/
theorem C4_asset_rows_witness :
    ({ name := "401k"
       balanceUSD := 300000
       valuationUSD := 300000
       valuationJPY := 300000 * 150 } : AssetValuation) ∈
      assetValuations exSeries 2030 150 :=
  C4_asset_rows exSeries 2030 150 exResult2030 [("401k", 300000)]
    rfl rfl ("401k", 300000) (by simp)

/-- C7: USD-to-JPY conversion is exactly linear: every row of the
pension-valuation table and every row of the asset-valuation table has its
JPY valuation equal to its USD valuation times the exchange rate, with a
single exact multiplication. -/
theorem C7_currency_linearity (series : List SimulationResult)
    (profile : UserProfile) (pensions : List Pension)
    (inheritanceYear spouseLifeExpectancyAge : ℤ)
    (interestRate exchangeRate : ℚ) :
    (∀ v ∈ pensionValuations series profile pensions inheritanceYear
        spouseLifeExpectancyAge interestRate exchangeRate,
      v.valuationJPY = v.valuationUSD * exchangeRate) ∧
    (∀ v ∈ assetValuations series inheritanceYear exchangeRate,
      v.valuationJPY = v.valuationUSD * exchangeRate) := by
  constructor
  · intro v hv
    rw [pensionValuations] at hv
    cases hfind : findTargetResult series inheritanceYear with
    | none => rw [hfind] at hv; simp at hv
    | some target =>
      rw [hfind] at hv
      obtain ⟨p, _, hpv⟩ := List.mem_map.mp hv
      rw [← hpv]
  · intro v hv
    rw [assetValuations] at hv
    split at hv
    · simp at hv
    · split at hv
      · simp at hv
      · obtain ⟨nb, _, hnb⟩ := List.mem_map.mp hv
        rw [← hnb]

/-- C7 witness: linearity instantiated at the concrete 401k asset row of the
year-2030 series with exchange rate 150. -/
theorem C7_currency_linearity_witness :
    AssetValuation.valuationJPY
        { name := "401k", balanceUSD := 300000, valuationUSD := 300000,
          valuationJPY := 300000 * 150 } =
      AssetValuation.valuationUSD
        { name := "401k", balanceUSD := 300000, valuationUSD := 300000,
          valuationJPY := 300000 * 150 } * 150 :=
  (C7_currency_linearity exSeries exProfile [exPension] 2030 87 5 150).2
    { name := "401k", balanceUSD := 300000, valuationUSD := 300000,
      valuationJPY := 300000 * 150 }
    (by rw [assetValuations]; exact List.mem_map.mpr ⟨("401k", 300000), by simp, rfl⟩)

/-- C8: every conversion request with a non-positive exchange rate fails
with an InvalidInput error, in both directions, instead of producing a
numeric result. -/
theorem C8_nonpositive_rate (amount : ℚ) (currency : Currency) (rate : ℚ)
    (h : rate ≤ 0) :
    toUSD amount currency rate = .error .invalidInput ∧
    toJPY amount currency rate = .error .invalidInput := by
  constructor <;> simp [toUSD, toJPY, h]

/-- C8 witness: converting 5 USD at rate 0 fails with InvalidInput in both
directions. -/
theorem C8_nonpositive_rate_witness :
    toUSD 5 Currency.USD 0 = .error .invalidInput ∧
    toJPY 5 Currency.USD 0 = .error .invalidInput :=
  C8_nonpositive_rate 5 Currency.USD 0 (by norm_num)

end FinancialTool
